import Mathlib

/-!
Verification of the Rise.ai OAuth sample server (`src/server.js`) against its
natural-language specification.  The server's state is an in-memory map
`riseInstallations` from instance id to a token record; the operations embedded
here are the token lifecycle helper `getValidAccessToken`, the OAuth callback
handler, the authorize redirect handler, the webhook handler, and the API error
mapper `handleApiError`.  Times are epoch milliseconds modelled as `Int`; the
upstream token endpoint is modelled by passing its (stubbed) response as an
explicit argument.
-/

namespace RiseOAuth

/-- One entry of `riseInstallations` (`src/server.js:183-187` and `88-92`):
fields `access_token`, `expires_at` (epoch ms) and `created_at` (ISO string). -/
structure InstallationRecord where
  access_token : String
  expires_at : Int
  created_at : String
  deriving Repr, DecidableEq

/-- The in-memory store `riseInstallations`, a map from instance id to record,
modelled as an association list with unique-key operations. -/
abbrev Store := List (String × InstallationRecord)

/-- Key lookup, modelling `riseInstallations[instanceId]`. -/
def lookupStore : Store → String → Option InstallationRecord
  | [], _ => none
  | (k, v) :: rest, id => if k = id then some v else lookupStore rest id

/-- Key overwrite, modelling `riseInstallations[instanceId] = record`
(last-writer-wins on an existing key, append otherwise). -/
def insertStore : Store → String → InstallationRecord → Store
  | [], id, r => [(id, r)]
  | (k, v) :: rest, id, r =>
      if k = id then (id, r) :: rest else (k, v) :: insertStore rest id r

/-- Key removal, modelling `delete riseInstallations[instanceId]`
(removing an absent key leaves the store as is). -/
def eraseStore : Store → String → Store
  | [], _ => []
  | (k, v) :: rest, id =>
      if k = id then eraseStore rest id else (k, v) :: eraseStore rest id

theorem lookupStore_insertStore_self (s : Store) (id : String) (r : InstallationRecord) :
    lookupStore (insertStore s id r) id = some r := by
  induction s with
  | nil => simp [insertStore, lookupStore]
  | cons hd tl ih =>
      obtain ⟨k, v⟩ := hd
      by_cases h : k = id
      · simp [insertStore, lookupStore, h]
      · simp [insertStore, lookupStore, h, ih]

theorem lookupStore_insertStore_ne (s : Store) (id id2 : String) (r : InstallationRecord)
    (h : id2 ≠ id) : lookupStore (insertStore s id r) id2 = lookupStore s id2 := by
  have hne : id ≠ id2 := Ne.symm h
  induction s with
  | nil => simp [insertStore, lookupStore, hne]
  | cons hd tl ih =>
      obtain ⟨k, v⟩ := hd
      by_cases hk : k = id
      · subst hk
        simp [insertStore, lookupStore, hne]
      · by_cases hk2 : k = id2
        · simp [insertStore, lookupStore, hk, hk2, h]
        · simp [insertStore, lookupStore, hk, hk2, ih]

theorem lookupStore_eraseStore_self (s : Store) (id : String) :
    lookupStore (eraseStore s id) id = none := by
  induction s with
  | nil => simp [eraseStore, lookupStore]
  | cons hd tl ih =>
      obtain ⟨k, v⟩ := hd
      by_cases h : k = id
      · simp [eraseStore, h, ih]
      · simp [eraseStore, lookupStore, h, ih]

theorem lookupStore_eraseStore_ne (s : Store) (id id2 : String) (h : id2 ≠ id) :
    lookupStore (eraseStore s id) id2 = lookupStore s id2 := by
  have hne : id ≠ id2 := Ne.symm h
  induction s with
  | nil => simp [eraseStore]
  | cons hd tl ih =>
      obtain ⟨k, v⟩ := hd
      by_cases hk : k = id
      · subst hk
        simp [eraseStore, lookupStore, hne, ih]
      · by_cases hk2 : k = id2
        · simp [eraseStore, lookupStore, hk, hk2, h]
        · simp [eraseStore, lookupStore, hk, hk2, ih]

theorem eraseStore_eraseStore (s : Store) (id : String) :
    eraseStore (eraseStore s id) id = eraseStore s id := by
  induction s with
  | nil => simp [eraseStore]
  | cons hd tl ih =>
      obtain ⟨k, v⟩ := hd
      by_cases h : k = id
      · simp [eraseStore, h, ih]
      · simp [eraseStore, h, ih]

/-- Body of a successful response from the platform token endpoint
(`response.data` in `src/server.js`): `access_token` and `expires_in` seconds. -/
structure TokenResponse where
  access_token : String
  expires_in : Int
  deriving Repr, DecidableEq

/-- `getValidAccessToken` (`src/server.js:69-99`).  Looks up the installation,
throws `Installation not found` if absent; refreshes when
`installation.expires_at < Date.now()`, storing
`{...installation, access_token, expires_at: now + expires_in*1000}` and
returning the fresh token; otherwise returns the stored token unchanged.
`now` stands for `Date.now()` and `resp` for the stubbed upstream response
to the refresh request. -/
def getValidAccessToken (store : Store) (instanceId : String) (now : Int)
    (resp : TokenResponse) : Except String (String × Store) :=
  match lookupStore store instanceId with
  | none => .error "Installation not found"
  | some installation =>
      if installation.expires_at < now then
        let updated : InstallationRecord :=
          { installation with
            access_token := resp.access_token
            expires_at := now + resp.expires_in * 1000 }
        .ok (resp.access_token, insertStore store instanceId updated)
      else
        .ok (installation.access_token, store)

/-- JavaScript truthiness of an optional query-string parameter: `!p` is
true when the parameter is `undefined` (absent) or the empty string, so
`truthy p` is false exactly in those cases. -/
def truthy : Option String → Bool
  | none => false
  | some s => !(s == "")

/-- HTTP response of the OAuth callback route (`src/server.js:160-199`):
400 `missing_parameters`, the rendered `installation-complete` page, or the
500 error page for a failed upstream exchange. -/
inductive CallbackResponse where
  | missingParams
  | renderSuccess (instanceId : String)
  | serverError
  deriving Repr, DecidableEq

/-- Observable outcome of one callback request: the response, the resulting
store, and whether a token-exchange request was issued upstream. -/
structure CallbackOutcome where
  response : CallbackResponse
  store : Store
  exchangeAttempted : Bool
  deriving Repr, DecidableEq

/-- `GET /oauth/rise/callback` handler (`src/server.js:160-199`).  Rejects with
400 when `!code || !instanceId`; otherwise POSTs to the token endpoint
(modelled by the `exchange` argument: `Except.error` is a thrown request, the
catch branch), and on success stores
`{access_token, expires_at: now + expires_in*1000, created_at}` under
`instanceId`.  `createdAt` stands for `new Date().toISOString()`. -/
def handleCallback (store : Store) (code instanceId : Option String) (now : Int)
    (exchange : Except String TokenResponse) (createdAt : String) : CallbackOutcome :=
  if !truthy code || !truthy instanceId then
    ⟨.missingParams, store, false⟩
  else
    match exchange with
    | .error _ => ⟨.serverError, store, true⟩
    | .ok resp =>
        let id := instanceId.getD ""
        let record : InstallationRecord :=
          ⟨resp.access_token, now + resp.expires_in * 1000, createdAt⟩
        ⟨.renderSuccess id, insertStore store id record, true⟩

/-- The five required environment variables (`src/server.js:30-36`). -/
structure Config where
  RISE_PLATFORM_URL : String
  SERVER_BASE_URL : String
  CLIENT_ID : String
  CLIENT_SECRET : String
  CLIENT_PUBLIC_KEY : String
  deriving Repr, DecidableEq

/-- Derived URL (`src/server.js:39`). -/
def REDIRECT_URI (cfg : Config) : String :=
  cfg.SERVER_BASE_URL ++ "/oauth/rise/callback"

/-- Derived URL (`src/server.js:40`). -/
def INSTALLER_URL (cfg : Config) : String :=
  cfg.RISE_PLATFORM_URL ++ "/installer"

/-- Hexadecimal digit character (uppercase), as used by percent-encoding. -/
def hexDigit (n : Nat) : Char :=
  Char.ofNat (if n < 10 then 48 + n else 55 + n)

/-- UTF-8 byte sequence of a character, as a list of byte values. -/
def utf8Bytes (c : Char) : List Nat :=
  let n := c.toNat
  if n < 128 then [n]
  else if n < 2048 then [192 + n / 64, 128 + n % 64]
  else if n < 65536 then [224 + n / 4096, 128 + n / 64 % 64, 128 + n % 64]
  else [240 + n / 262144, 128 + n / 4096 % 64, 128 + n / 64 % 64, 128 + n % 64]

/-- Percent-escape of one byte, e.g. 47 becomes "%2F". -/
def byteHex (b : Nat) : String :=
  String.mk [Char.ofNat 37, hexDigit (b / 16 % 16), hexDigit (b % 16)]

/-- Whether `encodeURIComponent` leaves a character (given by its code point)
unescaped: ASCII letters and digits and - _ . ! ~ * ( ) and the apostrophe. -/
def uriUnescaped (n : Nat) : Bool :=
  (decide (65 ≤ n) && decide (n ≤ 90)) || (decide (97 ≤ n) && decide (n ≤ 122)) ||
  (decide (48 ≤ n) && decide (n ≤ 57)) ||
  (n == 45) || (n == 95) || (n == 46) || (n == 33) || (n == 126) ||
  (n == 42) || (n == 39) || (n == 40) || (n == 41)

/-- JavaScript `encodeURIComponent`: percent-encodes the UTF-8 bytes of every
character outside the unescaped set. -/
def encodeURIComponent (s : String) : String :=
  String.join (s.toList.map fun c =>
    if uriUnescaped c.toNat then String.mk [c]
    else String.join ((utf8Bytes c).map byteHex))

/-- HTTP response of the authorize route: 400 `missing_token` or a 302
redirect to the given URL. -/
inductive AuthorizeResponse where
  | missingToken
  | redirect (url : String)
  deriving Repr, DecidableEq

/-- `GET /oauth/rise/authorize` handler (`src/server.js:147-157`).  Rejects
with 400 `missing_token` when `!token`; otherwise redirects to
`INSTALLER_URL/install?appId=CLIENT_ID&redirectUrl=encodeURIComponent(REDIRECT_URI)&token=token`. -/
def authorizeRoute (cfg : Config) (token : Option String) : AuthorizeResponse :=
  if !truthy token then
    .missingToken
  else
    .redirect (INSTALLER_URL cfg ++ "/install?appId=" ++ cfg.CLIENT_ID ++
      "&redirectUrl=" ++ encodeURIComponent (REDIRECT_URI cfg) ++
      "&token=" ++ (token.getD ""))

/-- The decoded event a webhook body carries once fully decoded:
`event.eventType` and `event.instanceId` (`src/server.js:208-211`). -/
structure WebhookEvent where
  eventType : String
  instanceId : String
  deriving Repr, DecidableEq

/-- Outcome of the fallible prefix of the webhook handler's `try` block
(`src/server.js:206-209`): `sigFail` when `jwt.verify` throws (bad signature,
malformed token, wrong algorithm); `parseFail` when the signature verifies but
`JSON.parse(payload.data)` or `JSON.parse(event.data)` throws (the payload's
`data` claim is absent or not valid JSON); `ok` when verification and both
parses succeed. -/
inductive WebhookDecode where
  | sigFail
  | parseFail
  | ok (event : WebhookEvent)
  deriving Repr, DecidableEq

/-- HTTP response of the webhook route: 200 `{received:true}` or
400 `webhook_verification_failed`. -/
inductive WebhookResult where
  | ok200
  | err400
  deriving Repr, DecidableEq

/-- `handleAppRemoval` (`src/server.js:233-237`): deletes the instance id
from `riseInstallations`. -/
def handleAppRemoval (store : Store) (instanceId : String) : Store :=
  eraseStore store instanceId

/-- `POST /rise/webhooks` handler (`src/server.js:205-231`).  Any exception in
the `try` block (signature failure or JSON parse failure) is answered with
400 `webhook_verification_failed` and the store untouched; after a full decode
the event is dispatched — `AppRemoved` deletes the instance id,
`AppInstalled` and any unknown event type only log — and the response is
200 `{received:true}`. -/
def webhookRoute (store : Store) (decoded : WebhookDecode) : WebhookResult × Store :=
  match decoded with
  | .sigFail => (.err400, store)
  | .parseFail => (.err400, store)
  | .ok event =>
      match event.eventType with
      | "AppRemoved" => (.ok200, handleAppRemoval store event.instanceId)
      | "AppInstalled" => (.ok200, store)
      | _ => (.ok200, store)

/-- The error value reaching `handleApiError`: `error.message` and
`error.response?.status` (absent for non-HTTP errors). -/
structure ApiError where
  message : String
  responseStatus : Option Nat
  deriving Repr, DecidableEq

/-- Whether the second character list occurs at the head of the first. -/
def startsWithChars : List Char → List Char → Bool
  | _, [] => true
  | [], _ :: _ => false
  | c :: cs, d :: ds => c == d && startsWithChars cs ds

/-- Whether the second character list occurs anywhere inside the first. -/
def containsSubChars (s pat : List Char) : Bool :=
  match s with
  | [] => startsWithChars [] pat
  | c :: rest => startsWithChars (c :: rest) pat || containsSubChars rest pat

/-- JavaScript `String.prototype.includes`: substring containment. -/
def jsIncludes (s sub : String) : Bool :=
  containsSubChars s.toList sub.toList

/-- JSON error response produced by `handleApiError`: status code and
`error` code string. -/
structure ApiErrorResponse where
  status : Nat
  error : String
  deriving Repr, DecidableEq

/-- `handleApiError` (`src/server.js:108-124`): 404 `installation_not_found`
when the message is exactly `Installation not found`; else 401 `token_error`
when the message contains `token`; else `error.response?.status || 500` with
`api_call_failed`. -/
def handleApiError (e : ApiError) : ApiErrorResponse :=
  if e.message == "Installation not found" then
    ⟨404, "installation_not_found"⟩
  else if jsIncludes e.message "token" then
    ⟨401, "token_error"⟩
  else
    ⟨e.responseStatus.getD 500, "api_call_failed"⟩

theorem webhookRoute_appRemoved (store : Store) (id : String) :
    webhookRoute store (.ok ⟨"AppRemoved", id⟩) = (.ok200, eraseStore store id) := rfl

/-- C1 counterexample: with `expires_at = 1000` and the call made at
`now = 1000` (exactly the stored expiry), `getValidAccessToken` returns the
old stored token and leaves the store untouched — no refresh is triggered,
so the expiry boundary is not exclusive as claimed. -/
theorem c1_boundary_counterexample :
    getValidAccessToken [("inst1", ⟨"tokOld", 1000, "c0"⟩)] "inst1" 1000 ⟨"tokNew", 3600⟩
      = .ok ("tokOld", [("inst1", ⟨"tokOld", 1000, "c0"⟩)]) := rfl

/-- C1 (amended): the expiry boundary of `getValidAccessToken` is inclusive —
a stored token is treated as valid at every time up to and including
`expires_at` (in particular at `now = expires_at` no refresh happens and the
stored token is returned), and a refresh exchange is triggered exactly when
`now` is strictly after `expires_at`. -/
theorem c1_boundary_inclusive (store : Store) (id : String) (now : Int)
    (resp : TokenResponse) (inst : InstallationRecord)
    (h : lookupStore store id = some inst) :
    (now ≤ inst.expires_at →
      getValidAccessToken store id now resp = .ok (inst.access_token, store)) ∧
    (inst.expires_at < now →
      getValidAccessToken store id now resp =
        .ok (resp.access_token, insertStore store id
          ⟨resp.access_token, now + resp.expires_in * 1000, inst.created_at⟩)) := by
  constructor
  · intro hle
    simp [getValidAccessToken, h, not_lt.mpr hle]
  · intro hlt
    simp [getValidAccessToken, h, hlt]

/-- Instantiation of the C1 boundary theorem at a concrete store, both at the
exact expiry instant (no refresh) and one millisecond later (refresh). -/
theorem c1_boundary_inclusive_witness :
    getValidAccessToken [("inst2", ⟨"tokA", 500, "c0"⟩)] "inst2" 500 ⟨"tokB", 60⟩
        = .ok ("tokA", [("inst2", ⟨"tokA", 500, "c0"⟩)]) ∧
    getValidAccessToken [("inst2", ⟨"tokA", 500, "c0"⟩)] "inst2" 501 ⟨"tokB", 60⟩
        = .ok ("tokB", [("inst2", ⟨"tokB", 60501, "c0"⟩)]) :=
  ⟨(c1_boundary_inclusive [("inst2", ⟨"tokA", 500, "c0"⟩)] "inst2" 500 ⟨"tokB", 60⟩
      ⟨"tokA", 500, "c0"⟩ rfl).1 (by decide),
   (c1_boundary_inclusive [("inst2", ⟨"tokA", 500, "c0"⟩)] "inst2" 501 ⟨"tokB", 60⟩
      ⟨"tokA", 500, "c0"⟩ rfl).2 (by decide)⟩

/-- C5: delivering a verified `AppRemoved` event twice for the same instance
id is idempotent — the first delivery returns 200 and removes the record, the
second (with the key already absent) returns the same 200 response without
error, and after both deliveries the store holds no record for that id. -/
theorem c5_app_removed_idempotent (store : Store) (id : String) :
    (webhookRoute store (.ok ⟨"AppRemoved", id⟩)).1 = .ok200 ∧
    lookupStore (webhookRoute store (.ok ⟨"AppRemoved", id⟩)).2 id = none ∧
    (webhookRoute (webhookRoute store (.ok ⟨"AppRemoved", id⟩)).2 (.ok ⟨"AppRemoved", id⟩)).1
      = (webhookRoute store (.ok ⟨"AppRemoved", id⟩)).1 ∧
    lookupStore
      (webhookRoute (webhookRoute store (.ok ⟨"AppRemoved", id⟩)).2 (.ok ⟨"AppRemoved", id⟩)).2 id
      = none := by
  rw [webhookRoute_appRemoved, webhookRoute_appRemoved]
  refine ⟨rfl, ?_, rfl, ?_⟩
  · exact lookupStore_eraseStore_self store id
  · exact lookupStore_eraseStore_self (handleAppRemoval store id) id

/-- C6: any webhook body that fails signature verification (mismatched
signature, malformed token, or wrong algorithm — every case in which
`jwt.verify` throws) is answered 400 `webhook_verification_failed` and the
installation store is returned completely unchanged. -/
theorem c6_bad_signature_rejected (store : Store) :
    webhookRoute store .sigFail = (.err400, store) := rfl

/-- C10: in `handleApiError`, an error whose message is not exactly
`Installation not found` but contains the substring `token` is mapped to
HTTP 401 `token_error`, regardless of any upstream response status carried
by the error. -/
theorem c10_token_message_precedence (e : ApiError)
    (hmsg : e.message ≠ "Installation not found")
    (htok : jsIncludes e.message "token" = true) :
    handleApiError e = ⟨401, "token_error"⟩ := by
  simp [handleApiError, hmsg, htok]

/-- Instantiation of the C10 theorem: an upstream failure with status 502
whose message mentions `token` is surfaced as 401 `token_error`, not as the
upstream 502. -/
theorem c10_token_message_precedence_witness :
    handleApiError ⟨"upstream token rejected", some 502⟩ = ⟨401, "token_error"⟩ :=
  c10_token_message_precedence ⟨"upstream token rejected", some 502⟩ (by decide) (by decide)

/-- C2 counterexample: a webhook request whose signature verifies but whose
verified payload does not survive the `JSON.parse` steps (`parseFail`, e.g. a
correctly signed token whose `data` claim is not valid JSON) is answered 400,
so a 400 is not produced only by signature-verification failure. -/
theorem c2_verified_parse_failure_400 :
    webhookRoute [] .parseFail = (.err400, []) := rfl

/-- C2 (amended): once signature verification and both `JSON.parse` steps of
the webhook body succeed, the endpoint answers 200 `{received:true}` whatever
the `eventType` is (recognized or not); a 400 `webhook_verification_failed`
is produced exactly when the `try` block throws — on signature-verification
failure or on a JSON parse failure of the verified payload. -/
theorem c2_webhook_success_on_decoded (store : Store) (event : WebhookEvent) :
    (webhookRoute store (.ok event)).1 = .ok200 ∧
    webhookRoute store .sigFail = (.err400, store) ∧
    webhookRoute store .parseFail = (.err400, store) := by
  refine ⟨?_, rfl, rfl⟩
  dsimp only [webhookRoute]
  split <;> rfl

/-- C3: after a successful callback token exchange for an instance id, any
`getValidAccessToken` call made strictly before the stored `expires_at`
returns exactly the access token the exchange stored and leaves the store
unchanged (no further exchange happens, whatever response `resp2` a second
exchange would have produced). -/
theorem c3_token_stable_until_expiry (store : Store) (code id createdAt : String)
    (now later : Int) (resp resp2 : TokenResponse)
    (hc : code ≠ "") (hi : id ≠ "")
    (hlater : later < now + resp.expires_in * 1000) :
    (handleCallback store (some code) (some id) now (.ok resp) createdAt).response
        = .renderSuccess id ∧
    getValidAccessToken
        (handleCallback store (some code) (some id) now (.ok resp) createdAt).store
        id later resp2
      = .ok (resp.access_token,
          (handleCallback store (some code) (some id) now (.ok resp) createdAt).store) := by
  have hcb : handleCallback store (some code) (some id) now (.ok resp) createdAt
      = ⟨.renderSuccess id,
         insertStore store id ⟨resp.access_token, now + resp.expires_in * 1000, createdAt⟩,
         true⟩ := by
    simp [handleCallback, truthy, hc, hi]
  rw [hcb]
  refine ⟨rfl, ?_⟩
  have hlook := lookupStore_insertStore_self store id
      ⟨resp.access_token, now + resp.expires_in * 1000, createdAt⟩
  simp [getValidAccessToken, hlook, not_lt.mpr (le_of_lt hlater)]

/-- Instantiation of the C3 theorem: exchange at time 0 with a 3600-second
token, reread at time 3599999 (one millisecond before expiry). -/
theorem c3_token_stable_until_expiry_witness :
    getValidAccessToken
        (handleCallback [] (some "abc") (some "inst1") 0 (.ok ⟨"T1", 3600⟩) "c0").store
        "inst1" 3599999 ⟨"T2", 3600⟩
      = .ok ("T1",
          (handleCallback [] (some "abc") (some "inst1") 0 (.ok ⟨"T1", 3600⟩) "c0").store) :=
  (c3_token_stable_until_expiry [] "abc" "inst1" "c0" 0 3599999 ⟨"T1", 3600⟩ ⟨"T2", 3600⟩
    (by decide) (by decide) (by decide)).2

/-- C4: a successful token exchange with upstream response
`{access_token: T, expires_in: S}` stores, both in the callback handler and in
a `getValidAccessToken` refresh, a record with `access_token = T` and
`expires_at = now + S*1000` (exact integer arithmetic on epoch
milliseconds); the refresh keeps the record's `created_at`. -/
theorem c4_expiry_arithmetic (store : Store) (code id createdAt : String)
    (now : Int) (resp : TokenResponse) (inst : InstallationRecord)
    (hc : code ≠ "") (hi : id ≠ "") :
    lookupStore (handleCallback store (some code) (some id) now (.ok resp) createdAt).store id
      = some ⟨resp.access_token, now + resp.expires_in * 1000, createdAt⟩ ∧
    (lookupStore store id = some inst → inst.expires_at < now →
      getValidAccessToken store id now resp
        = .ok (resp.access_token, insertStore store id
            ⟨resp.access_token, now + resp.expires_in * 1000, inst.created_at⟩) ∧
      lookupStore (insertStore store id
          ⟨resp.access_token, now + resp.expires_in * 1000, inst.created_at⟩) id
        = some ⟨resp.access_token, now + resp.expires_in * 1000, inst.created_at⟩) := by
  constructor
  · have hcb : handleCallback store (some code) (some id) now (.ok resp) createdAt
        = ⟨.renderSuccess id,
           insertStore store id ⟨resp.access_token, now + resp.expires_in * 1000, createdAt⟩,
           true⟩ := by
      simp [handleCallback, truthy, hc, hi]
    rw [hcb]
    exact lookupStore_insertStore_self store id _
  · intro h hexp
    refine ⟨?_, lookupStore_insertStore_self store id _⟩
    simp [getValidAccessToken, h, hexp]

/-- Instantiation of the C4 theorem: the spec scenario, `code=abc`,
`instanceId=inst1`, stubbed response `{access_token:"T1", expires_in:3600}`
at `now = 5`, stores `expires_at = 3600005`; a later refresh at
`now = 4000000` stores `expires_at = 7600000` and keeps `created_at`. -/
theorem c4_expiry_arithmetic_witness :
    lookupStore (handleCallback [] (some "abc") (some "inst1") 5 (.ok ⟨"T1", 3600⟩) "c0").store
        "inst1" = some ⟨"T1", 3600005, "c0"⟩ ∧
    getValidAccessToken [("inst1", ⟨"T1", 3600005, "c0"⟩)] "inst1" 4000000 ⟨"T2", 3600⟩
      = .ok ("T2", [("inst1", ⟨"T2", 7600000, "c0"⟩)]) :=
  ⟨(c4_expiry_arithmetic [] "abc" "inst1" "c0" 5 ⟨"T1", 3600⟩ ⟨"T1", 3600005, "c0"⟩
      (by decide) (by decide)).1,
   ((c4_expiry_arithmetic [("inst1", ⟨"T1", 3600005, "c0"⟩)] "abc" "inst1" "c0" 4000000
      ⟨"T2", 3600⟩ ⟨"T1", 3600005, "c0"⟩ (by decide) (by decide)).2 rfl (by decide)).1⟩

/-- C7 counterexample: a callback request whose `code` parameter is present
but equal to the empty string (`?code=&instanceId=inst1`) is rejected with
400 `missing_parameters` even though neither parameter is absent, refuting
the claimed "if and only if ... absent". -/
theorem c7_empty_param_counterexample :
    handleCallback [] (some "") (some "inst1") 0 (.ok ⟨"T1", 3600⟩) "c0"
      = ⟨.missingParams, [], false⟩ ∧ (some "" : Option String) ≠ none :=
  ⟨rfl, by decide⟩

/-- C7 (amended): the callback handler answers 400 `missing_parameters` —
with the store unchanged and no exchange issued — exactly when `code` or
`instanceId` is JavaScript-falsy (absent or the empty string); an exchange is
attempted exactly when both are present and non-empty. -/
theorem c7_missing_params (store : Store) (code instanceId : Option String)
    (now : Int) (exchange : Except String TokenResponse) (createdAt : String) :
    (handleCallback store code instanceId now exchange createdAt
        = ⟨.missingParams, store, false⟩
      ↔ (truthy code = false ∨ truthy instanceId = false)) ∧
    (handleCallback store code instanceId now exchange createdAt).exchangeAttempted
      = (truthy code && truthy instanceId) := by
  cases hc : truthy code with
  | false => simp [handleCallback, hc]
  | true =>
      cases hi : truthy instanceId with
      | false => simp [handleCallback, hc, hi]
      | true => cases exchange <;> simp [handleCallback, hc, hi]

/-- A concrete configuration used to instantiate the route handlers. -/
def sampleConfig : Config :=
  ⟨"https://platform", "https://server", "cid", "secret", "pk"⟩

/-- C8 counterexample: an authorize request whose `token` parameter is present
but equal to the empty string (`?token=`) is rejected with 400
`missing_token` even though the parameter is not absent, refuting the claimed
"if and only if ... absent". -/
theorem c8_empty_token_counterexample :
    authorizeRoute sampleConfig (some "") = .missingToken ∧
    (some "" : Option String) ≠ none :=
  ⟨rfl, by decide⟩

/-- C8 (amended): the authorize route answers 400 `missing_token` exactly when
the `token` parameter is JavaScript-falsy (absent or the empty string);
otherwise it answers a 302 redirect to the URL obtained by concatenating the
installer base URL (`RISE_PLATFORM_URL ++ "/installer"`), `/install`, the
client identifier as `appId`, the URL-encoded fixed callback URL
(`SERVER_BASE_URL ++ "/oauth/rise/callback"`) as `redirectUrl`, and the
supplied install token as `token`. -/
theorem c8_authorize_redirect (cfg : Config) (token : Option String) :
    (authorizeRoute cfg token = .missingToken ↔ truthy token = false) ∧
    (truthy token = true →
      authorizeRoute cfg token
        = .redirect (cfg.RISE_PLATFORM_URL ++ "/installer" ++ "/install?appId=" ++
            cfg.CLIENT_ID ++ "&redirectUrl=" ++
            encodeURIComponent (cfg.SERVER_BASE_URL ++ "/oauth/rise/callback") ++
            "&token=" ++ (token.getD ""))) := by
  cases ht : truthy token with
  | false => simp [authorizeRoute, INSTALLER_URL, REDIRECT_URI, ht]
  | true => simp [authorizeRoute, INSTALLER_URL, REDIRECT_URI, ht]

/-- Instantiation of the C8 theorem at the sample configuration: the redirect
URL is the literal concatenation with the callback URL percent-encoded. -/
theorem c8_authorize_redirect_witness :
    authorizeRoute sampleConfig (some "tok123")
      = .redirect
          ("https://platform/installer/install?appId=cid&redirectUrl=https%3A%2F%2Fserver%2Foauth%2Frise%2Fcallback&token=tok123") := by
  have h := (c8_authorize_redirect sampleConfig (some "tok123")).2 rfl
  rw [h]
  rfl

/-- C9: a refresh performed by `getValidAccessToken` replaces only the access
token and expiry of the refreshed record — its `created_at` keeps the value
set at the first successful exchange — and the record of every other instance
id in the store is unchanged. -/
theorem c9_refresh_frame (store : Store) (id : String) (now : Int)
    (resp : TokenResponse) (inst : InstallationRecord)
    (h : lookupStore store id = some inst) (hexp : inst.expires_at < now) :
    getValidAccessToken store id now resp
      = .ok (resp.access_token, insertStore store id
          ⟨resp.access_token, now + resp.expires_in * 1000, inst.created_at⟩) ∧
    lookupStore (insertStore store id
        ⟨resp.access_token, now + resp.expires_in * 1000, inst.created_at⟩) id
      = some ⟨resp.access_token, now + resp.expires_in * 1000, inst.created_at⟩ ∧
    ∀ id2, id2 ≠ id →
      lookupStore (insertStore store id
          ⟨resp.access_token, now + resp.expires_in * 1000, inst.created_at⟩) id2
        = lookupStore store id2 := by
  refine ⟨?_, lookupStore_insertStore_self store id _, ?_⟩
  · simp [getValidAccessToken, h, hexp]
  · intro id2 hne
    exact lookupStore_insertStore_ne store id id2 _ hne

/-- Instantiation of the C9 theorem: refreshing `inst1` at time 2000 keeps
its `created_at` (`c0`) and leaves the record of `other` untouched. -/
theorem c9_refresh_frame_witness :
    getValidAccessToken
        [("inst1", ⟨"T1", 1000, "c0"⟩), ("other", ⟨"TX", 9999, "cX"⟩)]
        "inst1" 2000 ⟨"T2", 3600⟩
      = .ok ("T2",
          [("inst1", ⟨"T2", 3602000, "c0"⟩), ("other", ⟨"TX", 9999, "cX"⟩)]) ∧
    lookupStore
        (insertStore [("inst1", ⟨"T1", 1000, "c0"⟩), ("other", ⟨"TX", 9999, "cX"⟩)]
          "inst1" ⟨"T2", 3602000, "c0"⟩) "other"
      = lookupStore [("inst1", ⟨"T1", 1000, "c0"⟩), ("other", ⟨"TX", 9999, "cX"⟩)] "other" :=
  ⟨(c9_refresh_frame [("inst1", ⟨"T1", 1000, "c0"⟩), ("other", ⟨"TX", 9999, "cX"⟩)]
      "inst1" 2000 ⟨"T2", 3600⟩ ⟨"T1", 1000, "c0"⟩ rfl (by decide)).1,
   (c9_refresh_frame [("inst1", ⟨"T1", 1000, "c0"⟩), ("other", ⟨"TX", 9999, "cX"⟩)]
      "inst1" 2000 ⟨"T2", 3600⟩ ⟨"T1", 1000, "c0"⟩ rfl (by decide)).2.2 "other" (by decide)⟩

end RiseOAuth
